import Mathlib

/-!
Shallow embedding of `app/main.py` (News Summariser API).

The module defines two FastAPI routes over two external collaborators
(a news provider and an LLM provider).  We embed the JSON values the
provider can return, Python dictionary `get` semantics, the Pydantic
validation performed when an `Article` is constructed, and the two
route handlers as pure functions of the (abstracted) outcome of their
single outbound call.  Outbound traffic and log output are returned
explicitly so that claims about side effects can be stated.
-/

namespace NewsApp

/-- JSON values, as decoded by `news_response.json()`. -/
inductive Json where
  | null
  | bool (b : Bool)
  | num (n : Int)
  | str (s : String)
  | arr (elems : List Json)
  | obj (fields : List (String × Json))

/-- Python truthiness (`bool(x)`) of a JSON-shaped value: `None`, `False`,
`0`, `""`, `[]` and `{}` are falsy, everything else is truthy. -/
def Json.truthy : Json → Bool
  | .null => false
  | .bool b => b
  | .num n => n != 0
  | .str s => !(s == "")
  | .arr elems => !elems.isEmpty
  | .obj fields => !fields.isEmpty

/-- Python `d.get(key, default)`.  On a dict it yields the stored value when
the key is present — even when that value is `None` — and `default` when the
key is absent.  `none` models the `AttributeError` raised when the receiver
is not a dict (e.g. `None.get(...)`). -/
def pyGet (j : Json) (key : String) (dflt : Json) : Option Json :=
  match j with
  | .obj fields => some ((fields.lookup key).getD dflt)
  | _ => none

/-- The Pydantic response model `Article` of `main.py` (lines 42-46). -/
structure Article where
  title : String
  url : String
  description : Option String := none
  source_name : Option String := none
deriving DecidableEq, Repr

/-- Pydantic validation of a required `str` field: a string value is
accepted, anything else (in particular `None`) raises a ValidationError. -/
def validateStr : Json → Option String
  | .str s => some s
  | _ => none

/-- Pydantic validation of an `Optional[str]` field: a string or `None` is
accepted, anything else raises a ValidationError. -/
def validateOptStr : Json → Option (Option String)
  | .str s => some (some s)
  | .null => some none
  | _ => none

/-- The body of the list comprehension at lines 81-86 of `main.py`: build one
`Article` from one provider record via `article.get(...)` with defaults,
then Pydantic-validate the four fields.  `none` models an uncaught exception
(`AttributeError` from `.get` on a non-dict, or a Pydantic ValidationError). -/
def mapArticle (article : Json) : Option Article := do
  let titleV ← pyGet article "title" (.str "No Title Available")
  let urlV ← pyGet article "url" (.str "#")
  let descV ← pyGet article "description" (.str "No description available.")
  let srcV ← pyGet article "source" (.obj [])
  let srcNameV ← pyGet srcV "name" (.str "Unknown Source")
  let title ← validateStr titleV
  let url ← validateStr urlV
  let description ← validateOptStr descV
  let source_name ← validateOptStr srcNameV
  pure { title := title, url := url, description := description,
         source_name := source_name }

/-- Outcome of the single outbound call `requests.get(NEWS_API_URL, ...)`
followed by `raise_for_status()` and `.json()`: either a
`requests.exceptions.RequestException` carrying an error text (network
failure or non-2xx status), or a decoded JSON body. -/
inductive NewsResult where
  | failure (errText : String)
  | success (body : Json)

/-- The HTTP outcome of the fetch-news route: a 200 payload of articles, an
`HTTPException` with a status code and detail, or an uncaught exception
escaping the handler, which FastAPI surfaces as a 500 server error. -/
inductive FetchNewsResponse where
  | ok (articles : List Article)
  | httpError (status : Nat) (detail : String)
  | serverError (reason : String)
deriving DecidableEq, Repr

/-- The handler body of `fetch_and_summarise_news` (lines 66-88 of
`main.py`), as a function of the outcome of its outbound call.

* A `RequestException` is caught and re-raised as `HTTPException(503, ...)`.
* `if not news_data.get("articles"): raise []` — raising a list is a Python
  `TypeError` (exceptions must derive from `BaseException`), an uncaught
  exception, hence a 500 server error.
* Line 78 slices the first five records into a variable that is never used;
  the comprehension at line 86 runs over the full list.
* A record that fails to map (see `mapArticle`) raises out of the handler. -/
def fetch_and_summarise_news (newsResult : NewsResult) : FetchNewsResponse :=
  match newsResult with
  | .failure e => .httpError 503 ("NewsAPI request failed: " ++ e)
  | .success news_data =>
    match pyGet news_data "articles" Json.null with
    | none => .serverError "AttributeError: response body is not a JSON object"
    | some articlesVal =>
      if !articlesVal.truthy then
        .serverError "TypeError: exceptions must derive from BaseException"
      else
        match articlesVal with
        | .arr records =>
          let _articles_to_summarize_data := records.take 5
          match records.mapM mapArticle with
          | some articles => .ok articles
          | none => .serverError "uncaught exception while mapping articles"
        | _ => .serverError "TypeError: articles value is not a list"

/-- The query parameters of the outbound news request (lines 60-65). -/
structure NewsParams where
  category : String
  language : String
  apiKey : String
  pageSize : Nat
deriving DecidableEq, Repr

/-- The fetch-news route: resolve the `category` query parameter (default
`"technology"`), build the outbound request, perform it through the
abstracted provider, and run the handler body on the outcome.  The first
component of the result is the trace of outbound requests issued. -/
def fetch_news_route (categoryParam : Option String) (apiKey : String)
    (provider : NewsParams → NewsResult) :
    List NewsParams × FetchNewsResponse :=
  let category := categoryParam.getD "technology"
  let params : NewsParams :=
    { category := category, language := "en", apiKey := apiKey, pageSize := 5 }
  ([params], fetch_and_summarise_news (provider params))

/-- The Pydantic request model `SummarizeRequest` (lines 48-49). -/
structure SummarizeRequest where
  content : String

/-- Outcome of `model.generate_content(prompt)` followed by
`response.text`: either some exception carrying an error text
(authentication, quota, network, malformed/blocked response), or the
generated text. -/
inductive LLMResult where
  | failure (errText : String)
  | success (text : String)

/-- The HTTP outcome of the summarize-article route: a 200
`SummaryResponse` payload, or an `HTTPException`. -/
inductive SummarizeResponse where
  | ok (summary : String)
  | httpError (status : Nat) (detail : String)
deriving DecidableEq, Repr

/-- Side effects of one summarize-article request: the prompts sent to the
LLM provider and the lines printed to the log. -/
structure SummarizeTrace where
  llmCalls : List String
  logs : List String
deriving DecidableEq, Repr

/-- The fixed model identifier (line 31). -/
def GEMINI_MODEL_NAME : String := "gemini-2.0-flash-lite"

/-- Python `s.strip()`: remove leading and trailing whitespace. -/
def pyStrip (s : String) : String :=
  ⟨((s.data.dropWhile Char.isWhitespace).reverse.dropWhile
      Char.isWhitespace).reverse⟩

/-- The prompt template of line 103. -/
def buildPrompt (content : String) : String :=
  "Based on the following news article content, provide a clear and concise summary of about 3-4 sentences. Focus on the key takeaway:\n\n---\n\n"
    ++ content ++ "\n\n---\n\nSummary:"

/-- The handler `summarize_article` (lines 91-115), as a function of the
request body and the abstracted LLM provider.

* `if not request.content or not request.content.strip()` raises
  `HTTPException(400, "Content cannot be empty.")` before any prompt is
  built or any outbound call made.
* Any exception from the LLM call is printed (line 109) and re-raised as
  `HTTPException(503, ...)`.
* On success the text is stripped; an empty strip result is replaced by a
  fixed placeholder sentence. -/
def summarize_article (request : SummarizeRequest)
    (llm : String → LLMResult) : SummarizeTrace × SummarizeResponse :=
  if request.content == "" || pyStrip request.content == "" then
    (⟨[], []⟩, .httpError 400 "Content cannot be empty.")
  else
    let prompt := buildPrompt request.content
    match llm prompt with
    | .failure e =>
        (⟨[prompt], ["DEBUG: Gemini API request failed. Error: " ++ e]⟩,
         .httpError 503 ("Gemini API request failed: " ++ e))
    | .success text =>
        let summary := pyStrip text
        (⟨[prompt], []⟩,
         .ok (if summary == "" then
                "The AI model could not generate a summary for this content."
              else summary))

/-- The process-wide configuration read at startup. -/
structure AppConfig where
  newsApiKey : String
  geminiApiKey : String
deriving DecidableEq, Repr

/-- Python truthiness of `os.getenv(...)`: falsy when the variable is unset
(`None`) or set to the empty string. -/
def pyTruthyStr : Option String → Bool
  | none => false
  | some s => !(s == "")

/-- The module-level configuration of lines 18-25: read the two environment
variables and raise `RuntimeError` when either is falsy.  The checks run
when the module is imported, before the FastAPI app can serve any route,
so an `error` result means the process never starts. -/
def startup (newsEnv geminiEnv : Option String) : Except String AppConfig :=
  if !pyTruthyStr newsEnv then
    .error "NEWS_API_KEY not found in the .env file."
  else if !pyTruthyStr geminiEnv then
    .error "GEMINI_API_KEY not found in the .env file."
  else
    .ok { newsApiKey := newsEnv.getD "", geminiApiKey := geminiEnv.getD "" }

/-! ### Spec-side description of the article mapping

The definitions below restate, in the spec's words, what one provider
record should map to: a missing `title`, `description` or `source.name`
becomes a fixed placeholder, a missing `url` becomes `"#"`, and present
fields are copied through unchanged.  They are compared with the
code-derived `mapArticle` above. -/

/-- A present string field is accepted as is; an absent one would take the
default.  Any other shape fails Pydantic validation of a required `str`. -/
def reqStrOk (o : Option Json) : Bool :=
  match o with
  | none => true
  | some (.str _) => true
  | some _ => false

/-- A present string or null field is accepted; an absent one would take the
default.  Any other shape fails validation of an `Optional[str]`. -/
def optStrOk (o : Option Json) : Bool :=
  match o with
  | none => true
  | some (.str _) => true
  | some .null => true
  | some _ => false

/-- A `source` field must be absent or a JSON object whose `name` field, if
present, is a string or null; anything else raises on `.get('name', ...)`
or fails validation. -/
def sourceOk (o : Option Json) : Bool :=
  match o with
  | none => true
  | some (.obj sf) => optStrOk (sf.lookup "name")
  | some _ => false

/-- A well-formed provider article record, following the provider schema of
the spec (fields `title`, `url`, `description`, `source.name`, each
optional): a JSON object whose present fields have the schema's types. -/
def isArticleRecord : Json → Bool
  | .obj fields =>
      reqStrOk (fields.lookup "title") && reqStrOk (fields.lookup "url") &&
      optStrOk (fields.lookup "description") && sourceOk (fields.lookup "source")
  | _ => false

/-- Spec-side value of a required string field: the present value, else the
fixed placeholder. -/
def specStrField (o : Option Json) (dflt : String) : String :=
  match o with
  | some (.str s) => s
  | _ => dflt

/-- Spec-side value of an optional string field: the present value (null
passes through as null), the fixed placeholder when absent. -/
def specOptStrField (o : Option Json) (dflt : String) : Option String :=
  match o with
  | none => some dflt
  | some (.str s) => some s
  | _ => none

/-- Spec-side value of `source_name`: `source.name` when present, the
placeholder when `source` or `source.name` is absent. -/
def specSourceName (o : Option Json) : Option String :=
  match o with
  | none => some "Unknown Source"
  | some (.obj sf) => specOptStrField (sf.lookup "name") "Unknown Source"
  | some _ => none

/-- Spec-side mapping of one provider record to an `Article`, stated from
the spec's words (placeholders for missing fields, present fields copied
through unchanged). -/
def specArticleOfRecord : Json → Article
  | .obj fields =>
      { title := specStrField (fields.lookup "title") "No Title Available"
        url := specStrField (fields.lookup "url") "#"
        description := specOptStrField (fields.lookup "description")
          "No description available."
        source_name := specSourceName (fields.lookup "source") }
  | _ =>
      { title := "No Title Available", url := "#"
        description := some "No description available."
        source_name := some "Unknown Source" }

/-- A sample provider article list exercising all the defaulting cases; six
records, one more than the upstream page size of 5. -/
def sampleRecords : List Json :=
  [Json.obj [("title", .str "A"), ("url", .str "http://a"),
             ("description", .str "about A"),
             ("source", .obj [("name", .str "Src A")])],
   Json.obj [("url", .str "http://b")],
   Json.obj [],
   Json.obj [("title", .str "D"), ("source", .obj [])],
   Json.obj [("title", .str "E"), ("description", .null)],
   Json.obj [("title", .str "F"), ("source", .obj [("name", .null)])]]

/-- A sample provider response body carrying `sampleRecords`. -/
def sampleNewsBody : Json :=
  .obj [("status", .str "ok"), ("totalResults", .num 6),
        ("articles", .arr sampleRecords)]

/-! ### Helper lemmas -/

/-- Validating a required string field with its default agrees with the
spec-side value whenever the present value (if any) is a string. -/
theorem validateStr_field (o : Option Json) (dflt : String)
    (h : reqStrOk o = true) :
    validateStr (o.getD (.str dflt)) = some (specStrField o dflt) := by
  match o with
  | none => rfl
  | some (.str s) => rfl
  | some .null | some (.bool _) | some (.num _) | some (.arr _)
  | some (.obj _) => simp [reqStrOk] at h

/-- Validating an optional string field with its default agrees with the
spec-side value whenever the present value (if any) is a string or null. -/
theorem validateOptStr_field (o : Option Json) (dflt : String)
    (h : optStrOk o = true) :
    validateOptStr (o.getD (.str dflt)) = some (specOptStrField o dflt) := by
  match o with
  | none => rfl
  | some (.str s) => rfl
  | some .null => rfl
  | some (.bool _) | some (.num _) | some (.arr _) | some (.obj _) =>
      simp [optStrOk] at h

/-- On a well-formed provider record the code's mapping succeeds and
produces exactly the spec-side article. -/
theorem mapArticle_valid (r : Json) (h : isArticleRecord r = true) :
    mapArticle r = some (specArticleOfRecord r) := by
  match r with
  | .null | .bool _ | .num _ | .str _ | .arr _ => simp [isArticleRecord] at h
  | .obj fields =>
    simp only [isArticleRecord, Bool.and_eq_true] at h
    obtain ⟨⟨⟨ht, hu⟩, hd⟩, hs⟩ := h
    simp only [mapArticle, specArticleOfRecord, pyGet, Option.bind_eq_bind,
      Option.some_bind]
    rw [validateStr_field _ _ ht, validateStr_field _ _ hu,
        validateOptStr_field _ _ hd]
    simp only [Option.bind_eq_bind, Option.some_bind]
    match hsrc : fields.lookup "source" with
    | none => rfl
    | some (.obj sf) =>
        rw [hsrc] at hs
        simp only [Option.getD_some, Option.some_bind']
        rw [validateOptStr_field _ _ hs]
        rfl
    | some .null | some (.bool _) | some (.num _) | some (.str _)
    | some (.arr _) =>
        rw [hsrc] at hs; exact Bool.noConfusion hs

/-- Mapping a list of well-formed records succeeds and produces the
spec-side article for each record, in order. -/
theorem mapM_mapArticle_valid (records : List Json)
    (h : ∀ r ∈ records, isArticleRecord r = true) :
    records.mapM mapArticle = some (records.map specArticleOfRecord) := by
  induction records with
  | nil => rfl
  | cons r rs ih =>
      rw [List.mapM_cons, mapArticle_valid r (h r (by simp)),
          ih (fun x hx => h x (by simp [hx]))]
      rfl

/-! ### Claim theorems -/

/-- Claim C1 (code behaviour at the claimed inputs): on a provider payload
whose `articles` field is an empty list, and on one with no `articles`
field at all, the handler reaches `raise []`.  Raising a list is a Python
`TypeError` — an uncaught exception, so the request ends in a 500 server
error, not in an empty 200 list as the claim states. -/
theorem fetch_news_empty_articles_raises :
    fetch_and_summarise_news (.success (.obj
        [("status", .str "ok"), ("totalResults", .num 0), ("articles", .arr [])]))
      = .serverError "TypeError: exceptions must derive from BaseException"
    ∧ fetch_and_summarise_news (.success (.obj [("status", .str "ok")]))
      = .serverError "TypeError: exceptions must derive from BaseException" :=
  ⟨rfl, rfl⟩

/-- Claim C2: on a provider payload whose `articles` field is a non-empty
list of N well-formed records, fetch-news returns all N mapped articles
(not capped at 5), substituting the fixed placeholders exactly for the
missing fields and copying present fields through unchanged. -/
theorem fetch_news_maps_all_articles (fields : List (String × Json))
    (records : List Json)
    (harticles : fields.lookup "articles" = some (.arr records))
    (hne : records ≠ [])
    (hvalid : ∀ r ∈ records, isArticleRecord r = true) :
    fetch_and_summarise_news (.success (.obj fields))
      = .ok (records.map specArticleOfRecord)
    ∧ (records.map specArticleOfRecord).length = records.length := by
  constructor
  · have hne' : records.isEmpty = false := by
      cases records with
      | nil => exact absurd rfl hne
      | cons a l => rfl
    simp only [fetch_and_summarise_news, pyGet, harticles, Option.getD_some,
      Json.truthy, hne', Bool.not_false, Bool.not_true,
      mapM_mapArticle_valid records hvalid]
    rfl
  · simp

/-- Witness for C2 at a concrete six-record payload. -/
theorem fetch_news_maps_all_articles_witness :
    fetch_and_summarise_news (.success sampleNewsBody)
      = .ok (sampleRecords.map specArticleOfRecord)
    ∧ (sampleRecords.map specArticleOfRecord).length = sampleRecords.length :=
  fetch_news_maps_all_articles _ sampleRecords rfl
    (by simp [sampleRecords]) (by decide)

/-- Claim C3: a request body whose `content` is empty or whitespace-only is
answered with `HTTPException(400, "Content cannot be empty.")`. -/
theorem summarize_empty_content_400 (content : String)
    (llm : String → LLMResult) (h : pyStrip content = "") :
    summarize_article ⟨content⟩ llm
      = (⟨[], []⟩, .httpError 400 "Content cannot be empty.") := by
  simp [summarize_article, h]

/-- Witness for C3 at a whitespace-only body. -/
theorem summarize_empty_content_400_witness :
    summarize_article ⟨"   "⟩ (fun _ => .success "a summary")
      = (⟨[], []⟩, .httpError 400 "Content cannot be empty.") :=
  summarize_empty_content_400 "   " _ (by decide)

/-- Claim C4: on non-empty content and a successful LLM call, the route
returns 200 with the returned text stripped of surrounding whitespace, or
the fixed placeholder sentence when the stripped text is empty. -/
theorem summarize_success_trimmed (content text : String)
    (h : pyStrip content ≠ "") :
    summarize_article ⟨content⟩ (fun _ => .success text)
      = (⟨[buildPrompt content], []⟩,
         .ok (if pyStrip text == "" then
                "The AI model could not generate a summary for this content."
              else pyStrip text)) := by
  have hc : (content == "") = false := by
    simp only [beq_eq_false_iff_ne]
    intro h0
    exact h (by rw [h0]; rfl)
  have hct : (pyStrip content == "") = false := by
    simp only [beq_eq_false_iff_ne]
    exact h
  simp [summarize_article, hc, hct]

/-- Witness for C4: a whitespace-only LLM answer becomes the placeholder. -/
theorem summarize_success_trimmed_witness :
    summarize_article ⟨"Some article content"⟩ (fun _ => .success "   ")
      = (⟨[buildPrompt "Some article content"], []⟩,
         .ok "The AI model could not generate a summary for this content.") :=
  summarize_success_trimmed "Some article content" "   " (by decide)

/-- Claim C5: when the outbound news call fails with a `RequestException`,
the route answers 503 with a detail embedding the provider error text. -/
theorem fetch_news_provider_failure_503 (categoryParam : Option String)
    (apiKey e : String) (provider : NewsParams → NewsResult)
    (h : provider { category := categoryParam.getD "technology",
                    language := "en", apiKey := apiKey, pageSize := 5 }
           = .failure e) :
    (fetch_news_route categoryParam apiKey provider).2
      = .httpError 503 ("NewsAPI request failed: " ++ e) := by
  simp [fetch_news_route, h, fetch_and_summarise_news]

/-- Witness for C5 at a concrete connection failure. -/
theorem fetch_news_provider_failure_503_witness :
    (fetch_news_route none "key" (fun _ => .failure "Connection refused")).2
      = .httpError 503 ("NewsAPI request failed: " ++ "Connection refused") :=
  fetch_news_provider_failure_503 none "key" "Connection refused"
    (fun _ => .failure "Connection refused") rfl

/-- Claim C6: when the LLM call raises, the route answers 503 with a detail
embedding the error text, and the failure is printed to the log. -/
theorem summarize_llm_failure_503_logged (content e : String)
    (h : pyStrip content ≠ "") :
    summarize_article ⟨content⟩ (fun _ => .failure e)
      = (⟨[buildPrompt content],
          ["DEBUG: Gemini API request failed. Error: " ++ e]⟩,
         .httpError 503 ("Gemini API request failed: " ++ e)) := by
  have hc : (content == "") = false := by
    simp only [beq_eq_false_iff_ne]
    intro h0
    exact h (by rw [h0]; rfl)
  have hct : (pyStrip content == "") = false := by
    simp only [beq_eq_false_iff_ne]
    exact h
  simp [summarize_article, hc, hct]

/-- Witness for C6 at a concrete quota error. -/
theorem summarize_llm_failure_503_logged_witness :
    summarize_article ⟨"hello world"⟩ (fun _ => .failure "quota exceeded")
      = (⟨[buildPrompt "hello world"],
          ["DEBUG: Gemini API request failed. Error: " ++ "quota exceeded"]⟩,
         .httpError 503 ("Gemini API request failed: " ++ "quota exceeded")) :=
  summarize_llm_failure_503_logged "hello world" "quota exceeded" (by decide)

/-- Claim C7: every fetch-news request issues exactly one outbound call,
with the resolved category (default `"technology"`), language `"en"`, the
configured API key and page size 5. -/
theorem fetch_news_single_outbound_request (categoryParam : Option String)
    (apiKey : String) (provider : NewsParams → NewsResult) :
    (fetch_news_route categoryParam apiKey provider).1
      = [{ category := categoryParam.getD "technology", language := "en",
           apiKey := apiKey, pageSize := 5 }] := rfl

/-- Claim C8: when either environment variable is unset or empty, the
module-level configuration raises a `RuntimeError`, so startup aborts and
no route is ever served. -/
theorem startup_missing_key_fatal (newsEnv geminiEnv : Option String)
    (h : newsEnv = none ∨ newsEnv = some "" ∨ geminiEnv = none
         ∨ geminiEnv = some "") :
    ∃ msg, startup newsEnv geminiEnv = .error msg := by
  by_cases hn : pyTruthyStr newsEnv = true
  · have hg : pyTruthyStr geminiEnv = false := by
      rcases h with h | h | h | h
      · subst h; simp [pyTruthyStr] at hn
      · subst h; simp [pyTruthyStr] at hn
      · subst h; rfl
      · subst h; rfl
    exact ⟨"GEMINI_API_KEY not found in the .env file.",
      by simp [startup, hn, hg]⟩
  · have hn' : pyTruthyStr newsEnv = false := by
      cases hb : pyTruthyStr newsEnv
      · rfl
      · exact absurd hb hn
    exact ⟨"NEWS_API_KEY not found in the .env file.", by simp [startup, hn']⟩

/-- Witness for C8: unset news key aborts startup. -/
theorem startup_missing_key_fatal_witness :
    ∃ msg, startup none (some "gemini-key") = .error msg :=
  startup_missing_key_fatal none (some "gemini-key") (Or.inl rfl)

/-- Claim C9: defaults are substituted only for absent keys.  A present
`description: null` passes through as null (not replaced by the
placeholder), a present `title: null` gets no placeholder (it fails
Pydantic validation of the required `str`, an uncaught exception), and a
present `source: null` gets no placeholder (`None.get` raises). -/
theorem null_valued_fields_not_defaulted (t u : String) :
    mapArticle (.obj [("title", .str t), ("url", .str u),
                      ("description", .null)])
      = some { title := t, url := u, description := none,
               source_name := some "Unknown Source" }
    ∧ mapArticle (.obj [("title", .null), ("url", .str u)]) = none
    ∧ mapArticle (.obj [("title", .str t), ("url", .str u),
                        ("source", .null)]) = none :=
  ⟨rfl, rfl, rfl⟩

/-- Claim C10: on empty or whitespace-only content the 400 is raised before
any side effect: no prompt is sent to the LLM and nothing is logged. -/
theorem summarize_empty_content_no_llm_call (content : String)
    (llm : String → LLMResult) (h : pyStrip content = "") :
    (summarize_article ⟨content⟩ llm).1 = ⟨[], []⟩ := by
  simp [summarize_article, h]

/-- Witness for C10 at the empty body. -/
theorem summarize_empty_content_no_llm_call_witness :
    (summarize_article ⟨""⟩ (fun _ => .failure "boom")).1 = ⟨[], []⟩ :=
  summarize_empty_content_no_llm_call "" (fun _ => .failure "boom") rfl

end NewsApp
